import Mathlib

/-!
Verification of the incremental-fetch-and-checkpoint pipeline of the
nw47-backup archiver (main.py) against its natural-language specification.

The Python source is embedded shallowly:
  * pure string manipulation is re-implemented on character lists so that
    every definition evaluates inside the kernel;
  * the filesystem is explicit state (checkpoint files, log files);
  * the HTTP client is an injected responder `String -> HttpResult`;
  * `requests.get` transport failures and uncaught Python exceptions are
    modelled as `PyErr` values that abort the surrounding computation,
    exactly where the source has no try/except;
  * timestamp parsing/formatting (`parse_timestamp` + `strftime`) is kept
    abstract as a parameter `fmt : String -> String`, because no claim
    depends on the rendered time text; the sort key used by
    `save_messages_to_file` is the raw timestamp string, which is modelled
    exactly.

A channel run records an event trace: page fetches, durable log appends
(the `with open(...)` block of `save_messages_to_file`), download-call
sites reached, and checkpoint writes.
-/

/-- Python `str.endswith`, on character lists. -/
def strEndsWith (s suffix : String) : Bool :=
  suffix.data.isSuffixOf s.data

/-- Python `str.startswith`, on character lists. -/
def strStartsWith (s p : String) : Bool :=
  p.data.isPrefixOf s.data

/-- Drop leading whitespace characters. -/
def dropWhileWs : List Char → List Char
  | [] => []
  | c :: cs => if c.isWhitespace then dropWhileWs cs else c :: cs

/-- Python `str.strip` (both ends), on character lists. -/
def pyStrip (s : String) : String :=
  ⟨(dropWhileWs ((dropWhileWs s.data).reverse)).reverse⟩

/-- Lexicographic (code-point) strict order on character lists; this is the
order Python uses to compare the raw timestamp strings in
`sorted(messages, key=lambda x: x.get('timestamp', ''), reverse=True)`. -/
def ltCharList : List Char → List Char → Bool
  | [], [] => false
  | [], _ :: _ => true
  | _ :: _, [] => false
  | a :: as, b :: bs => if a < b then true else if b < a then false else ltCharList as bs

/-- Python `<` on strings. -/
def pyStrLt (a b : String) : Bool := ltCharList a.data b.data

/-- One attachment object of an API message: fields `url` and optional
`filename` are the only ones the source reads. -/
structure Attachment where
  url : String
  filename : Option String
deriving DecidableEq

/-- The `image` object inside an embed; the source reads `embed['image']['url']`. -/
structure EmbedImage where
  url : String
deriving DecidableEq

/-- One embed object; the source reads `embed.get('image')`. -/
structure MsgEmbed where
  image : Option EmbedImage
deriving DecidableEq

/-- One API message as consumed by `main.py`: `id`, `timestamp`,
`author.username`, `content`, `attachments`, `embeds`.  `Option` models a
missing key (the source substitutes defaults via `.get`). -/
structure Message where
  id : String
  timestamp : Option String
  author : Option String
  content : Option String
  attachments : List Attachment
  embeds : List MsgEmbed
deriving DecidableEq

/-- `channels.Channel`: remote id plus the name used as directory key. -/
structure Channel where
  channel_id : String
  name : String
deriving DecidableEq

/-- `BACKUP_DIR = 'backups'` from main.py. -/
def BACKUP_DIR : String := "backups"

/-- `LAST_MESSAGE_ID_FILE_TEMPLATE = '{}/last_message_id.txt'` applied to the
channel name, exactly as `load_last_message_id`/`save_last_message_id` do:
the path is relative to the working directory, not under `BACKUP_DIR`. -/
def LAST_MESSAGE_ID_FILE_TEMPLATE (channel_name : String) : String :=
  channel_name ++ "/last_message_id.txt"

/-- `os.path.join(BACKUP_DIR, channel_name)` from `create_channel_folder`. -/
def channelFolder (channel_name : String) : String :=
  BACKUP_DIR ++ "/" ++ channel_name

/-- `os.path.join(channel_folder, "images")` from `create_channel_folder`. -/
def imagesFolder (channel_name : String) : String :=
  channelFolder channel_name ++ "/images"

/-- `os.path.join(BACKUP_DIR, channel_name, f"{channel_name}_messages.txt")`
from `save_messages_to_file`. -/
def messagesFile (channel_name : String) : String :=
  channelFolder channel_name ++ "/" ++ channel_name ++ "_messages.txt"

/-- `create_channel_folder`: returns the channel folder and images folder it
ensures exist. -/
def create_channel_folder (channel_name : String) : String × String :=
  (channelFolder channel_name, imagesFolder channel_name)

/-- Observable state of one file: absent, present with content, or present
but unreadable (e.g. a permission failure on `open`). -/
inductive FileState where
  | absent
  | unreadable
  | present (content : String)
deriving DecidableEq

/-- Python exceptions that the embedded code can raise and never catches. -/
inductive PyErr where
  | osError
  | typeError
  | requestException
deriving DecidableEq

/-- Pointwise map update. -/
def update {α : Type} (f : String → α) (k : String) (v : α) : String → α :=
  fun x => if x = k then v else f x

/-- Filesystem state: checkpoint files by path, log files by path (a log
file is its list of appended lines; an absent log file reads as `[]`). -/
structure FSt where
  ckpt : String → FileState
  log : String → List String

/-- `load_last_message_id`: reads the checkpoint file, strips it, returns
`none` on `FileNotFoundError`; any other `OSError` (the unreadable state)
is NOT caught by the source and propagates. -/
def load_last_message_id (ck : String → FileState) (channel_name : String) :
    Except PyErr (Option String) :=
  match ck (LAST_MESSAGE_ID_FILE_TEMPLATE channel_name) with
  | FileState.absent => Except.ok none
  | FileState.unreadable => Except.error PyErr.osError
  | FileState.present c => Except.ok (some (pyStrip c))

/-- Elementary filesystem steps performed by `save_last_message_id`:
`open(path, 'w')` truncates the file, then `file.write(message_id)` appends
the id to the (now empty) file.  Each step is separately observable. -/
inductive FsOp where
  | truncate (path : String)
  | write (path : String) (data : String)
deriving DecidableEq

/-- The step sequence of `save_last_message_id(channel_name, message_id)`. -/
def save_last_message_id_ops (channel_name message_id : String) : List FsOp :=
  [FsOp.truncate (LAST_MESSAGE_ID_FILE_TEMPLATE channel_name),
   FsOp.write (LAST_MESSAGE_ID_FILE_TEMPLATE channel_name) message_id]

/-- Effect of one filesystem step. -/
def applyFsOp (f : String → FileState) : FsOp → (String → FileState)
  | FsOp.truncate p => update f p (FileState.present "")
  | FsOp.write p d =>
      update f p (match f p with
        | FileState.present c => FileState.present (c ++ d)
        | _ => FileState.present d)

/-- Run a sequence of filesystem steps. -/
def runFsOps (f : String → FileState) (ops : List FsOp) : String → FileState :=
  ops.foldl applyFsOp f

/-- `save_last_message_id`: the net effect of its step sequence. -/
def save_last_message_id (ck : String → FileState) (channel_name message_id : String) :
    String → FileState :=
  runFsOps ck (save_last_message_id_ops channel_name message_id)

/-- The states of the file at `path`, observed before the first step, between
consecutive steps, and after the last step. -/
def overwriteStates (f : String → FileState) (ops : List FsOp) (path : String) :
    List FileState :=
  match ops with
  | [] => [f path]
  | op :: rest => f path :: overwriteStates (applyFsOp f op) rest path

/-- An overwrite of `path` from old content `old` to new content `new` is
atomic with respect to partial writes when every observable intermediate
state of the file holds either the old or the new content. -/
def atomicOverwrite (ops : List FsOp) (path old new : String) : Prop :=
  ∀ s ∈ overwriteStates (fun _ => FileState.present old) ops path,
    s = FileState.present old ∨ s = FileState.present new

/-- The `formatted_time` computation of `save_messages_to_file` and
`retrieve_messages`, with the `parse_timestamp`/`strftime` composite kept
abstract as `fmt`. -/
def formatted_time (fmt : String → String) (timestamp : Option String) : String :=
  match timestamp with
  | some ts => fmt ts
  | none => "Unknown time"

/-- The text line `f"[{formatted_time}] {author}: {content}"` written by
`save_messages_to_file`, with the source's `.get` defaults. -/
def messageLine (fmt : String → String) (m : Message) : String :=
  "[" ++ formatted_time fmt m.timestamp ++ "] " ++
    m.author.getD "Unknown user" ++ ": " ++ m.content.getD "No content"

/-- The sort key `x.get('timestamp', '')` of `save_messages_to_file`. -/
def tsKey (m : Message) : String := m.timestamp.getD ""

/-- Stable insertion of `m` into a list sorted by timestamp descending:
`m` goes before the first element whose key is not greater than `m`'s. -/
def descInsert (m : Message) : List Message → List Message
  | [] => [m]
  | b :: l => if pyStrLt (tsKey m) (tsKey b) then b :: descInsert m l else m :: b :: l

/-- `sorted(messages, key=lambda x: x.get('timestamp', ''), reverse=True)`:
the stable descending sort by raw timestamp string. -/
def sortByTimestampDesc : List Message → List Message
  | [] => []
  | m :: l => descInsert m (sortByTimestampDesc l)

/-- Order of the sorted log: `a` may precede `b` when `a`'s raw timestamp
key is not smaller than `b`'s. -/
def tsGE (a b : Message) : Prop := pyStrLt (tsKey a) (tsKey b) = false

/-- `save_messages_to_file(channel_name, messages)`: sorts the page by
timestamp newest-first and appends one text line per message to the
channel's messages file (opened in mode 'a', closed on return). -/
def save_messages_to_file (fmt : String → String) (channel_name : String)
    (messages : List Message) (log : String → List String) : String → List String :=
  update log (messagesFile channel_name)
    (log (messagesFile channel_name) ++ (sortByTimestampDesc messages).map (messageLine fmt))

/-- `valid_image_url`: the URL string ends with `.png`, `.jpg`, `.jpeg`
or `.gif`. -/
def valid_image_url (url : String) : Bool :=
  (["png", "jpg", "jpeg", "gif"]).any (fun ext => strEndsWith url ("." ++ ext))

/-- The image URLs a message offers for download, in the order the
per-message loop of `retrieve_messages` examines them: all attachment URLs,
then the URLs of embeds that carry an `image` object. -/
def candidateImageUrls (m : Message) : List String :=
  m.attachments.map Attachment.url ++
    m.embeds.filterMap (fun e => e.image.map EmbedImage.url)

/-- The first URL in the page (message order, then candidate order) that
passes `valid_image_url`.  At this URL the source evaluates
`download_image(url, images_folder, filename)` — three positional arguments
for a function declared as `download_image(url, images_path="")`, which in
Python raises `TypeError` at the call, before any HTTP request is made. -/
def pageFirstValidImageUrl (ms : List Message) : Option String :=
  ((ms.map candidateImageUrls).flatten).find? valid_image_url

/-- Result of `requests.get` on the messages endpoint: a raised transport
exception, or a response with a status code and decoded JSON body. -/
inductive HttpResult where
  | transportError
  | response (status : Nat) (body : List Message)
deriving DecidableEq

/-- Observable events of one channel run. `logAppend` marks the durable
append-and-close performed by `save_messages_to_file`; `downloadCall` marks
a reached `download_image` call site; `checkpointWrite` marks
`save_last_message_id`. -/
inductive Event where
  | pageFetch (url : String)
  | logAppend (path : String) (lines : List String)
  | downloadCall (url : String)
  | checkpointWrite (path : String) (content : String)
deriving DecidableEq

/-- Boolean recogniser for `pageFetch` events. -/
def isPageFetchEv : Event → Bool
  | Event.pageFetch _ => true
  | _ => false

/-- Boolean recogniser for `checkpointWrite` events. -/
def isCheckpointWriteEv : Event → Bool
  | Event.checkpointWrite _ _ => true
  | _ => false

/-- Final state, event trace and outcome of a (partial) run; `err = some e`
means the Python exception `e` propagated uncaught. -/
structure RunResult where
  st : FSt
  trace : List Event
  err : Option PyErr

/-- The request URL built by `retrieve_messages`: `limit=100` always, and
`&after=<id>` exactly when the loaded checkpoint id is truthy (present and
non-empty after stripping). -/
def pageUrl (channel_id : String) (last_message_id : Option String) : String :=
  match last_message_id with
  | some s =>
      if s = "" then
        "https://discord.com/api/v9/channels/" ++ channel_id ++ "/messages?limit=100"
      else
        "https://discord.com/api/v9/channels/" ++ channel_id ++ "/messages?limit=100"
          ++ "&after=" ++ s
  | none => "https://discord.com/api/v9/channels/" ++ channel_id ++ "/messages?limit=100"

/-- `retrieve_messages(channel)`, step for step:
load the checkpoint (an unreadable file raises), issue ONE page request,
and on a 200 response with a non-empty body: append the page to the
messages file via `save_messages_to_file`, walk the messages looking for
downloadable images — where the first URL passing `valid_image_url`
reaches the three-argument `download_image` call and raises `TypeError` —
and, only if the walk finishes, commit `messages[0]['id']` (the FIRST
element of the body in API order) with `save_last_message_id`.
A transport failure of `requests.get` raises; a non-200 status is only
logged; an empty body is only logged. -/
def retrieve_messages (fmt : String → String) (fetch : String → HttpResult)
    (channel : Channel) (st : FSt) : RunResult :=
  match load_last_message_id st.ckpt channel.name with
  | Except.error e => ⟨st, [], some e⟩
  | Except.ok last_message_id =>
    let url := pageUrl channel.channel_id last_message_id
    match fetch url with
    | HttpResult.transportError => ⟨st, [Event.pageFetch url], some PyErr.requestException⟩
    | HttpResult.response status body =>
      if status = 200 then
        match body with
        | [] => ⟨st, [Event.pageFetch url], none⟩
        | m0 :: rest =>
          let lines := (sortByTimestampDesc (m0 :: rest)).map (messageLine fmt)
          let st1 : FSt :=
            { st with log := save_messages_to_file fmt channel.name (m0 :: rest) st.log }
          match pageFirstValidImageUrl (m0 :: rest) with
          | some u =>
              ⟨st1,
               [Event.pageFetch url, Event.logAppend (messagesFile channel.name) lines,
                Event.downloadCall u],
               some PyErr.typeError⟩
          | none =>
              ⟨{ st1 with ckpt := save_last_message_id st1.ckpt channel.name m0.id },
               [Event.pageFetch url, Event.logAppend (messagesFile channel.name) lines,
                Event.checkpointWrite (LAST_MESSAGE_ID_FILE_TEMPLATE channel.name) m0.id],
               none⟩
      else
        ⟨st, [Event.pageFetch url], none⟩

/-- The channel loop of `main()`: channels are processed in order and an
uncaught exception from `retrieve_messages` aborts the whole run — the
loop body has no try/except. -/
def runChannels (fmt : String → String) (fetch : String → HttpResult) :
    List Channel → FSt → RunResult
  | [], st => ⟨st, [], none⟩
  | ch :: rest, st =>
    let r := retrieve_messages fmt fetch ch st
    match r.err with
    | some e => ⟨r.st, r.trace, some e⟩
    | none =>
      let r2 := runChannels fmt fetch rest r.st
      ⟨r2.st, r.trace ++ r2.trace, r2.err⟩

/-- Initial filesystem: no checkpoint files, empty logs. -/
def st0 : FSt := ⟨fun _ => FileState.absent, fun _ => []⟩

/-- The concrete channel of the spec's worked scenario. -/
def ch_general : Channel := ⟨"42", "general"⟩

/-- A plain text message, earliest timestamp. -/
def m100 : Message :=
  ⟨"100", some "2024-01-01T00:00:00+00:00", some "alice", some "hi", [], []⟩

/-- A plain text message, latest timestamp. -/
def m101 : Message :=
  ⟨"101", some "2024-01-02T00:00:00+00:00", some "bob", some "yo", [], []⟩

/-- A message carrying one image attachment. -/
def mImg : Message :=
  ⟨"102", some "2024-01-03T00:00:00+00:00", some "carol", some "pic",
   [⟨"https://cdn.example/a.png", none⟩], []⟩

/-- Responder: every fetch answers 200 with the two-message page. -/
def fetchTwo : String → HttpResult := fun _ => HttpResult.response 200 [m100, m101]

/-- Responder: every fetch answers 200 with the one-image-message page. -/
def fetchImg : String → HttpResult := fun _ => HttpResult.response 200 [mImg]

/-- Responder: every fetch answers 503. -/
def fetch503 : String → HttpResult := fun _ => HttpResult.response 503 []

/-- First channel of the isolation scenario. -/
def ch_A : Channel := ⟨"1", "chA"⟩

/-- Second channel of the isolation scenario. -/
def ch_B : Channel := ⟨"2", "chB"⟩

/-- Responder for the isolation scenario: channel `chA`'s page fetch raises
a transport error, every other fetch answers 200 with one message. -/
def fetchC3 : String → HttpResult := fun u =>
  if u = pageUrl "1" none then HttpResult.transportError else HttpResult.response 200 [m100]

/-- Filesystem whose only checkpoint file, channel `general`'s, is
unreadable. -/
def stUnreadable : FSt :=
  ⟨fun p => if p = LAST_MESSAGE_ID_FILE_TEMPLATE "general" then FileState.unreadable
            else FileState.absent,
   fun _ => []⟩

/-- Appending to the empty string is the identity. -/
theorem empty_append_str (s : String) : "" ++ s = s := by
  cases s with
  | mk l => rfl

/-- `ltCharList` is asymmetric. -/
theorem ltCharList_asymm : ∀ x y, ltCharList x y = true → ltCharList y x = false := by
  intro x
  induction x with
  | nil =>
    intro y h
    cases y with
    | nil => simp [ltCharList] at h
    | cons b bs => simp [ltCharList]
  | cons a as ih =>
    intro y h
    cases y with
    | nil => simp [ltCharList] at h
    | cons b bs =>
      simp only [ltCharList] at h ⊢
      by_cases hab : a < b
      · have hba : ¬ b < a := lt_asymm hab
        simp [hab, hba]
      · by_cases hba : b < a
        · simp [hab, hba] at h
        · simp [hab, hba] at h ⊢
          exact ih bs h

/-- Non-strictness of `ltCharList` is transitive. -/
theorem ltCharList_le_trans :
    ∀ x y z, ltCharList x y = false → ltCharList y z = false → ltCharList x z = false := by
  intro x
  induction x with
  | nil =>
    intro y z hxy hyz
    cases y with
    | nil => exact hyz
    | cons b bs => simp [ltCharList] at hxy
  | cons a as ih =>
    intro y z hxy hyz
    cases y with
    | nil =>
      cases z with
      | nil => simp [ltCharList]
      | cons c cs => simp [ltCharList] at hyz
    | cons b bs =>
      cases z with
      | nil => simp [ltCharList]
      | cons c cs =>
        simp only [ltCharList] at hxy hyz ⊢
        by_cases hab : a < b
        · simp [hab] at hxy
        · by_cases hbc : b < c
          · simp [hbc] at hyz
          · have hac : ¬ a < c :=
              not_lt.mpr (le_trans (not_lt.mp hbc) (not_lt.mp hab))
            by_cases hca : c < a
            · simp [hab, hac, hca]
            · have hbaa : ¬ b < a :=
                not_lt.mpr (le_trans (not_lt.mp hca) (not_lt.mp hbc))
              have hcb : ¬ c < b :=
                not_lt.mpr (le_trans (not_lt.mp hab) (not_lt.mp hca))
              simp [hab, hbaa] at hxy
              simp [hbc, hcb] at hyz
              simp [hac, hca]
              exact ih bs cs hxy hyz

/-- `pyStrLt` is asymmetric. -/
theorem pyStrLt_asymm (a b : String) (h : pyStrLt a b = true) : pyStrLt b a = false :=
  ltCharList_asymm a.data b.data h

/-- Non-strictness of `pyStrLt` is transitive. -/
theorem pyStrLt_le_trans (a b c : String) (hab : pyStrLt a b = false)
    (hbc : pyStrLt b c = false) : pyStrLt a c = false :=
  ltCharList_le_trans a.data b.data c.data hab hbc

/-- Inserting into the descending sort is a permutation. -/
theorem descInsert_perm (m : Message) (l : List Message) :
    List.Perm (descInsert m l) (m :: l) := by
  induction l with
  | nil => exact List.Perm.refl _
  | cons b t ih =>
    cases h : pyStrLt (tsKey m) (tsKey b) with
    | true =>
      simp only [descInsert, h, if_true]
      exact (ih.cons b).trans (List.Perm.swap m b t)
    | false =>
      simp only [descInsert, h, Bool.false_eq_true, if_false]
      exact List.Perm.refl _

/-- The descending sort is a permutation of its input. -/
theorem sortByTimestampDesc_perm (l : List Message) :
    List.Perm (sortByTimestampDesc l) l := by
  induction l with
  | nil => exact List.Perm.refl _
  | cons m t ih => exact (descInsert_perm m (sortByTimestampDesc t)).trans (ih.cons m)

/-- Insertion preserves the pairwise descending order. -/
theorem descInsert_pairwise (m : Message) (l : List Message)
    (hl : l.Pairwise tsGE) : (descInsert m l).Pairwise tsGE := by
  induction l with
  | nil => simp [descInsert]
  | cons b t ih =>
    rcases List.pairwise_cons.mp hl with ⟨hb, ht⟩
    cases h : pyStrLt (tsKey m) (tsKey b) with
    | true =>
      simp only [descInsert, h, if_true]
      refine List.pairwise_cons.mpr ⟨?_, ih ht⟩
      intro x hx
      rcases List.mem_cons.mp ((descInsert_perm m t).mem_iff.mp hx) with rfl | hxt
      · exact pyStrLt_asymm _ _ h
      · exact hb x hxt
    | false =>
      simp only [descInsert, h, Bool.false_eq_true, if_false]
      refine List.pairwise_cons.mpr ⟨?_, hl⟩
      intro x hx
      rcases List.mem_cons.mp hx with rfl | hxt
      · exact h
      · exact pyStrLt_le_trans _ _ _ h (hb x hxt)

/-- The descending sort is pairwise descending. -/
theorem sortByTimestampDesc_pairwise (l : List Message) :
    (sortByTimestampDesc l).Pairwise tsGE := by
  induction l with
  | nil => simp [sortByTimestampDesc]
  | cons m t ih => exact descInsert_pairwise m (sortByTimestampDesc t) ih

/-- An unreadable checkpoint file makes `retrieve_messages` raise before any
request. -/
theorem retrieve_messages_unreadable (fmt : String → String) (fetch : String → HttpResult)
    (channel : Channel) (st : FSt) (e : PyErr)
    (hload : load_last_message_id st.ckpt channel.name = Except.error e) :
    retrieve_messages fmt fetch channel st = ⟨st, [], some e⟩ := by
  simp [retrieve_messages, hload]

/-- A transport failure of the page request propagates as an uncaught
exception. -/
theorem retrieve_messages_transport (fmt : String → String) (fetch : String → HttpResult)
    (channel : Channel) (st : FSt) (lm : Option String)
    (hload : load_last_message_id st.ckpt channel.name = Except.ok lm)
    (hfetch : fetch (pageUrl channel.channel_id lm) = HttpResult.transportError) :
    retrieve_messages fmt fetch channel st =
      ⟨st, [Event.pageFetch (pageUrl channel.channel_id lm)], some PyErr.requestException⟩ := by
  simp [retrieve_messages, hload, hfetch]

/-- A non-200 status is only logged: no state change, no exception. -/
theorem retrieve_messages_non200 (fmt : String → String) (fetch : String → HttpResult)
    (channel : Channel) (st : FSt) (lm : Option String) (s : Nat) (body : List Message)
    (hload : load_last_message_id st.ckpt channel.name = Except.ok lm)
    (hfetch : fetch (pageUrl channel.channel_id lm) = HttpResult.response s body)
    (hs : s ≠ 200) :
    retrieve_messages fmt fetch channel st =
      ⟨st, [Event.pageFetch (pageUrl channel.channel_id lm)], none⟩ := by
  simp [retrieve_messages, hload, hfetch, hs]

/-- An empty 200 page is only logged: no state change, no exception. -/
theorem retrieve_messages_empty (fmt : String → String) (fetch : String → HttpResult)
    (channel : Channel) (st : FSt) (lm : Option String)
    (hload : load_last_message_id st.ckpt channel.name = Except.ok lm)
    (hfetch : fetch (pageUrl channel.channel_id lm) = HttpResult.response 200 []) :
    retrieve_messages fmt fetch channel st =
      ⟨st, [Event.pageFetch (pageUrl channel.channel_id lm)], none⟩ := by
  simp [retrieve_messages, hload, hfetch]

/-- A 200 page containing a downloadable image: the page is appended to the
log, then the first `download_image` call raises `TypeError`; no checkpoint
is written. -/
theorem retrieve_messages_image (fmt : String → String) (fetch : String → HttpResult)
    (channel : Channel) (st : FSt) (lm : Option String) (m0 : Message)
    (rest : List Message) (u : String)
    (hload : load_last_message_id st.ckpt channel.name = Except.ok lm)
    (hfetch : fetch (pageUrl channel.channel_id lm) = HttpResult.response 200 (m0 :: rest))
    (himg : pageFirstValidImageUrl (m0 :: rest) = some u) :
    retrieve_messages fmt fetch channel st =
      ⟨⟨st.ckpt, save_messages_to_file fmt channel.name (m0 :: rest) st.log⟩,
       [Event.pageFetch (pageUrl channel.channel_id lm),
        Event.logAppend (messagesFile channel.name)
          ((sortByTimestampDesc (m0 :: rest)).map (messageLine fmt)),
        Event.downloadCall u],
       some PyErr.typeError⟩ := by
  simp [retrieve_messages, hload, hfetch, himg]

/-- A 200 page with no downloadable image: the page is appended to the log,
then `messages[0]['id']` is committed through `save_last_message_id`. -/
theorem retrieve_messages_success (fmt : String → String) (fetch : String → HttpResult)
    (channel : Channel) (st : FSt) (lm : Option String) (m0 : Message)
    (rest : List Message)
    (hload : load_last_message_id st.ckpt channel.name = Except.ok lm)
    (hfetch : fetch (pageUrl channel.channel_id lm) = HttpResult.response 200 (m0 :: rest))
    (hnoimg : pageFirstValidImageUrl (m0 :: rest) = none) :
    retrieve_messages fmt fetch channel st =
      ⟨⟨save_last_message_id st.ckpt channel.name m0.id,
        save_messages_to_file fmt channel.name (m0 :: rest) st.log⟩,
       [Event.pageFetch (pageUrl channel.channel_id lm),
        Event.logAppend (messagesFile channel.name)
          ((sortByTimestampDesc (m0 :: rest)).map (messageLine fmt)),
        Event.checkpointWrite (LAST_MESSAGE_ID_FILE_TEMPLATE channel.name) m0.id],
       none⟩ := by
  simp [retrieve_messages, hload, hfetch, hnoimg]

/-- The committed checkpoint file holds exactly the id that was saved. -/
theorem save_last_message_id_lookup (ck : String → FileState)
    (channel_name message_id : String) :
    save_last_message_id ck channel_name message_id
        (LAST_MESSAGE_ID_FILE_TEMPLATE channel_name) = FileState.present message_id := by
  simp [save_last_message_id, save_last_message_id_ops, runFsOps, applyFsOp, update,
    empty_append_str]

/-- Once the checkpoint loads, the first event of a channel run is the single
page request, built from the loaded cursor. -/
theorem retrieve_messages_head (fmt : String → String) (fetch : String → HttpResult)
    (channel : Channel) (st : FSt) (lm : Option String)
    (hload : load_last_message_id st.ckpt channel.name = Except.ok lm) :
    (retrieve_messages fmt fetch channel st).trace.head? =
      some (Event.pageFetch (pageUrl channel.channel_id lm)) := by
  cases hf : fetch (pageUrl channel.channel_id lm) with
  | transportError =>
    rw [retrieve_messages_transport fmt fetch channel st lm hload hf]; rfl
  | response s body =>
    by_cases hs : s = 200
    · subst hs
      cases body with
      | nil => rw [retrieve_messages_empty fmt fetch channel st lm hload hf]; rfl
      | cons m0 rest =>
        cases himg : pageFirstValidImageUrl (m0 :: rest) with
        | none =>
          rw [retrieve_messages_success fmt fetch channel st lm m0 rest hload hf himg]; rfl
        | some u =>
          rw [retrieve_messages_image fmt fetch channel st lm m0 rest u hload hf himg]; rfl
    · rw [retrieve_messages_non200 fmt fetch channel st lm s body hload hf hs]; rfl

/-- Claim C1 is false as stated: for the two-message page presented in the
API order `[id 100, id 101]`, the committed checkpoint is `100`, the id of
the FIRST message of the page, not `101`, the id of the last message. -/
theorem c1_counterexample :
    [m100, m101].getLast? = some m101 ∧ m101.id = "101" ∧
    fetchTwo (pageUrl "42" none) = HttpResult.response 200 [m100, m101] ∧
    (retrieve_messages (fun s => s) fetchTwo ch_general st0).st.ckpt
        (LAST_MESSAGE_ID_FILE_TEMPLATE "general") = FileState.present "100" ∧
    (retrieve_messages (fun s => s) fetchTwo ch_general st0).st.ckpt
        (LAST_MESSAGE_ID_FILE_TEMPLATE "general") ≠ FileState.present "101" := by
  decide

/-- Claim C1 amended: in a channel run whose page fetch succeeds with status
200, a non-empty body and no downloadable image URL, the committed
checkpoint equals the id of the FIRST message of the page in the order the
API presented it (`messages[0]['id']`), and the run writes the checkpoint
exactly once, so no later write within the run can move it backwards. -/
theorem c1_checkpoint_is_first_message_id (fmt : String → String)
    (fetch : String → HttpResult) (channel : Channel) (st : FSt) (lm : Option String)
    (m0 : Message) (rest : List Message)
    (hload : load_last_message_id st.ckpt channel.name = Except.ok lm)
    (hfetch : fetch (pageUrl channel.channel_id lm) = HttpResult.response 200 (m0 :: rest))
    (hnoimg : pageFirstValidImageUrl (m0 :: rest) = none) :
    (retrieve_messages fmt fetch channel st).st.ckpt
        (LAST_MESSAGE_ID_FILE_TEMPLATE channel.name) = FileState.present m0.id ∧
    (retrieve_messages fmt fetch channel st).trace.countP isCheckpointWriteEv = 1 := by
  rw [retrieve_messages_success fmt fetch channel st lm m0 rest hload hfetch hnoimg]
  constructor
  · exact save_last_message_id_lookup st.ckpt channel.name m0.id
  · simp [List.countP_cons, isCheckpointWriteEv]

/-- Witness for the amended claim C1 at the concrete two-message run. -/
theorem c1_checkpoint_is_first_message_id_witness :
    (retrieve_messages (fun s => s) fetchTwo ch_general st0).st.ckpt
        (LAST_MESSAGE_ID_FILE_TEMPLATE "general") = FileState.present "100" ∧
    (retrieve_messages (fun s => s) fetchTwo ch_general st0).trace.countP
        isCheckpointWriteEv = 1 :=
  c1_checkpoint_is_first_message_id (fun s => s) fetchTwo ch_general st0 none m100 [m101]
    rfl rfl rfl

/-- Claim C4 is false as stated: after a successful fetch returning a
non-empty page (two messages, status 200, fully processed and
checkpointed), the engine does NOT issue another fetch — the run's trace
holds exactly one page request. -/
theorem c4_counterexample :
    fetchTwo (pageUrl "42" none) = HttpResult.response 200 [m100, m101] ∧
    (retrieve_messages (fun s => s) fetchTwo ch_general st0).err = none ∧
    (retrieve_messages (fun s => s) fetchTwo ch_general st0).trace.countP
        isCheckpointWriteEv = 1 ∧
    (retrieve_messages (fun s => s) fetchTwo ch_general st0).trace.countP
        isPageFetchEv = 1 ∧
    ¬ 2 ≤ (retrieve_messages (fun s => s) fetchTwo ch_general st0).trace.countP
        isPageFetchEv := by
  decide

/-- Claim C4 amended: a channel run issues at most one page request — after
processing the single fetched page the run terminates; the feed is advanced
across runs, not within one run. -/
theorem c4_single_page_per_run (fmt : String → String) (fetch : String → HttpResult)
    (channel : Channel) (st : FSt) :
    (retrieve_messages fmt fetch channel st).trace.countP isPageFetchEv ≤ 1 := by
  cases hload : load_last_message_id st.ckpt channel.name with
  | error e =>
    rw [retrieve_messages_unreadable fmt fetch channel st e hload]
    simp [List.countP_nil]
  | ok lm =>
    cases hf : fetch (pageUrl channel.channel_id lm) with
    | transportError =>
      rw [retrieve_messages_transport fmt fetch channel st lm hload hf]
      simp [List.countP_cons, isPageFetchEv]
    | response s body =>
      by_cases hs : s = 200
      · subst hs
        cases body with
        | nil =>
          rw [retrieve_messages_empty fmt fetch channel st lm hload hf]
          simp [List.countP_cons, isPageFetchEv]
        | cons m0 rest =>
          cases himg : pageFirstValidImageUrl (m0 :: rest) with
          | none =>
            rw [retrieve_messages_success fmt fetch channel st lm m0 rest hload hf himg]
            simp [List.countP_cons, isPageFetchEv]
          | some u =>
            rw [retrieve_messages_image fmt fetch channel st lm m0 rest u hload hf himg]
            simp [List.countP_cons, isPageFetchEv]
      · rw [retrieve_messages_non200 fmt fetch channel st lm s body hload hf hs]
        simp [List.countP_cons, isPageFetchEv]

/-- Claim C5 is false as stated: the page arrives in the API order
`[m100, m101]` (timestamps ascending), but the appended log lines are in
the reverse order, because `save_messages_to_file` sorts the page by
timestamp newest-first before writing. -/
theorem c5_counterexample :
    save_messages_to_file (fun s => s) "general" [m100, m101] st0.log
        (messagesFile "general") =
      [messageLine (fun s => s) m101, messageLine (fun s => s) m100] ∧
    save_messages_to_file (fun s => s) "general" [m100, m101] st0.log
        (messagesFile "general") ≠
      [messageLine (fun s => s) m100, messageLine (fun s => s) m101] := by
  decide

/-- Claim C5 amended: for every successfully fetched page, the appended log
lines are those of a permutation of the page sorted by raw timestamp string
in descending order (stable, newest first) — not the API arrival order. -/
theorem c5_lines_sorted_desc (fmt : String → String) (channel_name : String)
    (messages : List Message) (log : String → List String) :
    List.Perm (sortByTimestampDesc messages) messages ∧
    (sortByTimestampDesc messages).Pairwise tsGE ∧
    save_messages_to_file fmt channel_name messages log (messagesFile channel_name) =
      log (messagesFile channel_name) ++
        (sortByTimestampDesc messages).map (messageLine fmt) := by
  refine ⟨sortByTimestampDesc_perm messages, sortByTimestampDesc_pairwise messages, ?_⟩
  simp [save_messages_to_file, update]

/-- Claim C7 is false as stated: overwriting the committed checkpoint `101`
with `202` is not atomic with respect to partial writes — after
`open(path, 'w')` truncates the file and before `write` completes, the
file observably holds neither the old nor the new id. -/
theorem c7_counterexample :
    ¬ atomicOverwrite (save_last_message_id_ops "general" "202")
        (LAST_MESSAGE_ID_FILE_TEMPLATE "general") "101" "202" := by
  unfold atomicOverwrite
  decide

/-- Claim C7 amended: `save_last_message_id` overwrites the checkpoint file
in place — truncate on open, then write — with no temp-file-and-rename
step; the observable file states are exactly the old content, then the
empty string, then the new id, so the final content is correct but an
intermediate empty state is exposed whenever the old and new ids are
non-empty. -/
theorem c7_truncate_then_write (channel_name message_id old : String) :
    overwriteStates (fun _ => FileState.present old)
        (save_last_message_id_ops channel_name message_id)
        (LAST_MESSAGE_ID_FILE_TEMPLATE channel_name) =
      [FileState.present old, FileState.present "", FileState.present message_id] ∧
    save_last_message_id (fun _ => FileState.present old) channel_name message_id
        (LAST_MESSAGE_ID_FILE_TEMPLATE channel_name) = FileState.present message_id := by
  constructor
  · simp [overwriteStates, save_last_message_id_ops, applyFsOp, update, empty_append_str]
  · exact save_last_message_id_lookup _ channel_name message_id

/-- Claim C9 is false as stated: the checkpoint file for channel `general`
lives at `general/last_message_id.txt`, relative to the working directory,
while the channel's archive directory — holding the log file and the
`images/` subdirectory — is `backups/general`; the checkpoint is not
inside it. -/
theorem c9_counterexample :
    LAST_MESSAGE_ID_FILE_TEMPLATE "general" = "general/last_message_id.txt" ∧
    messagesFile "general" = "backups/general/general_messages.txt" ∧
    imagesFolder "general" = "backups/general/images" ∧
    create_channel_folder "general" = ("backups/general", "backups/general/images") ∧
    strStartsWith (messagesFile "general") (channelFolder "general" ++ "/") = true ∧
    strStartsWith (imagesFolder "general") (channelFolder "general" ++ "/") = true ∧
    strStartsWith (LAST_MESSAGE_ID_FILE_TEMPLATE "general")
        (channelFolder "general" ++ "/") = false := by
  decide

/-- Claim C9 amended: the log file and the `images/` subdirectory live in the
per-channel archive directory `backups/{name}`, but the checkpoint file is
written to `{name}/last_message_id.txt` relative to the working directory,
a sibling of — not inside — the archive directory; its content is exactly
the last committed message id string. -/
theorem c9_checkpoint_path_and_content (fmt : String → String)
    (fetch : String → HttpResult) (channel : Channel) (st : FSt) (lm : Option String)
    (m0 : Message) (rest : List Message)
    (hload : load_last_message_id st.ckpt channel.name = Except.ok lm)
    (hfetch : fetch (pageUrl channel.channel_id lm) = HttpResult.response 200 (m0 :: rest))
    (hnoimg : pageFirstValidImageUrl (m0 :: rest) = none) :
    (retrieve_messages fmt fetch channel st).st.ckpt
        (channel.name ++ "/last_message_id.txt") = FileState.present m0.id ∧
    LAST_MESSAGE_ID_FILE_TEMPLATE channel.name = channel.name ++ "/last_message_id.txt" ∧
    messagesFile channel.name =
      BACKUP_DIR ++ "/" ++ channel.name ++ "/" ++ channel.name ++ "_messages.txt" ∧
    imagesFolder channel.name = BACKUP_DIR ++ "/" ++ channel.name ++ "/images" := by
  refine ⟨?_, rfl, rfl, rfl⟩
  rw [retrieve_messages_success fmt fetch channel st lm m0 rest hload hfetch hnoimg]
  exact save_last_message_id_lookup st.ckpt channel.name m0.id

/-- Witness for the amended claim C9 at the concrete two-message run. -/
theorem c9_checkpoint_path_and_content_witness :
    (retrieve_messages (fun s => s) fetchTwo ch_general st0).st.ckpt
        ("general" ++ "/last_message_id.txt") = FileState.present "100" ∧
    LAST_MESSAGE_ID_FILE_TEMPLATE "general" = "general" ++ "/last_message_id.txt" ∧
    messagesFile "general" =
      BACKUP_DIR ++ "/" ++ "general" ++ "/" ++ "general" ++ "_messages.txt" ∧
    imagesFolder "general" = BACKUP_DIR ++ "/" ++ "general" ++ "/images" :=
  c9_checkpoint_path_and_content (fun s => s) fetchTwo ch_general st0 none m100 [m101]
    rfl rfl rfl

/-- A URL selected by the per-message image walk passes `valid_image_url`. -/
theorem pageFirstValidImageUrl_valid (ms : List Message) (u : String)
    (h : pageFirstValidImageUrl ms = some u) : valid_image_url u = true :=
  List.find?_some h

/-- Claim C10 confirmed: a `download_image` call site is reached only for a
URL that ends with `.png`, `.jpg`, `.jpeg` or `.gif` — and
`valid_image_url` accepts exactly those four suffixes, regardless of the
resource's actual content type; every other attachment or embed URL is
passed over with no download call. -/
theorem c10_download_only_image_suffix (fmt : String → String)
    (fetch : String → HttpResult) (channel : Channel) (st : FSt) :
    (∀ u, Event.downloadCall u ∈ (retrieve_messages fmt fetch channel st).trace →
      valid_image_url u = true) ∧
    (∀ u, valid_image_url u = true ↔
      (strEndsWith u ".png" = true ∨ strEndsWith u ".jpg" = true ∨
       strEndsWith u ".jpeg" = true ∨ strEndsWith u ".gif" = true)) := by
  constructor
  · intro u hmem
    cases hload : load_last_message_id st.ckpt channel.name with
    | error e =>
      rw [retrieve_messages_unreadable fmt fetch channel st e hload] at hmem
      simp at hmem
    | ok lm =>
      cases hf : fetch (pageUrl channel.channel_id lm) with
      | transportError =>
        rw [retrieve_messages_transport fmt fetch channel st lm hload hf] at hmem
        simp at hmem
      | response s body =>
        by_cases hs : s = 200
        · subst hs
          cases body with
          | nil =>
            rw [retrieve_messages_empty fmt fetch channel st lm hload hf] at hmem
            simp at hmem
          | cons m0 rest =>
            cases himg : pageFirstValidImageUrl (m0 :: rest) with
            | none =>
              rw [retrieve_messages_success fmt fetch channel st lm m0 rest hload hf himg]
                at hmem
              simp at hmem
            | some v =>
              rw [retrieve_messages_image fmt fetch channel st lm m0 rest v hload hf himg]
                at hmem
              simp at hmem
              rw [hmem]
              exact pageFirstValidImageUrl_valid (m0 :: rest) v himg
        · rw [retrieve_messages_non200 fmt fetch channel st lm s body hload hf hs] at hmem
          simp at hmem
  · intro u
    have h1 : ("." ++ "png" : String) = ".png" := rfl
    have h2 : ("." ++ "jpg" : String) = ".jpg" := rfl
    have h3 : ("." ++ "jpeg" : String) = ".jpeg" := rfl
    have h4 : ("." ++ "gif" : String) = ".gif" := rfl
    simp [valid_image_url, List.any_eq_true, h1, h2, h3, h4]

/-- Witness for claim C10: the image run reaches a download call for
`https://cdn.example/a.png`, and the theorem certifies the suffix. -/
theorem c10_download_only_image_suffix_witness :
    valid_image_url "https://cdn.example/a.png" = true :=
  (c10_download_only_image_suffix (fun s => s) fetchImg ch_general st0).1
    "https://cdn.example/a.png" (by decide)

/-- Claim C2 evaluated at its failing input (code bug): the page holds one
message with the attachment `https://cdn.example/a.png`.  The page's text
line is appended, the walk reaches the `download_image` call — which the
source invokes with three positional arguments against a two-parameter
signature, raising `TypeError` before any request — the run aborts, the
log gains exactly the one text line and never any "shared an image" line,
and no checkpoint is written. -/
theorem c2_failing_run :
    (retrieve_messages (fun s => s) fetchImg ch_general st0).err = some PyErr.typeError ∧
    (retrieve_messages (fun s => s) fetchImg ch_general st0).trace =
      [Event.pageFetch (pageUrl "42" none),
       Event.logAppend (messagesFile "general") [messageLine (fun s => s) mImg],
       Event.downloadCall "https://cdn.example/a.png"] ∧
    (retrieve_messages (fun s => s) fetchImg ch_general st0).st.log
        (messagesFile "general") =
      ["[2024-01-03T00:00:00+00:00] carol: pic"] ∧
    (retrieve_messages (fun s => s) fetchImg ch_general st0).st.ckpt
        (LAST_MESSAGE_ID_FILE_TEMPLATE "general") = FileState.absent := by
  decide

/-- Claim C8 is false as stated: with an existing but unreadable checkpoint
file, the run does not start from the beginning of the feed — the uncaught
read exception aborts the channel run before any page request is issued. -/
theorem c8_counterexample :
    stUnreadable.ckpt (LAST_MESSAGE_ID_FILE_TEMPLATE "general") = FileState.unreadable ∧
    (retrieve_messages (fun s => s) fetchTwo ch_general stUnreadable).err =
      some PyErr.osError ∧
    (retrieve_messages (fun s => s) fetchTwo ch_general stUnreadable).trace = [] := by
  decide

/-- Claim C8 amended: a missing checkpoint file loads as absence and the run
starts from the beginning of the feed — the single page request carries
`limit=100` and no `after` parameter — without being treated as an error;
an existing checkpoint whose stripped content is non-empty makes the
request carry `limit=100` and `after=<id>`; but an unreadable checkpoint
file raises an uncaught exception instead of being treated as absence. -/
theorem c8_missing_checkpoint_not_fatal (fmt : String → String)
    (fetch : String → HttpResult) (channel : Channel) (st : FSt) (c : String) :
    (st.ckpt (LAST_MESSAGE_ID_FILE_TEMPLATE channel.name) = FileState.absent →
      load_last_message_id st.ckpt channel.name = Except.ok none ∧
      (retrieve_messages fmt fetch channel st).trace.head? =
        some (Event.pageFetch (pageUrl channel.channel_id none))) ∧
    (pageUrl channel.channel_id none =
      "https://discord.com/api/v9/channels/" ++ channel.channel_id
        ++ "/messages?limit=100") ∧
    (∀ s : String, s ≠ "" →
      pageUrl channel.channel_id (some s) =
        "https://discord.com/api/v9/channels/" ++ channel.channel_id
          ++ "/messages?limit=100" ++ "&after=" ++ s) ∧
    (st.ckpt (LAST_MESSAGE_ID_FILE_TEMPLATE channel.name) = FileState.present c →
      load_last_message_id st.ckpt channel.name = Except.ok (some (pyStrip c))) ∧
    (st.ckpt (LAST_MESSAGE_ID_FILE_TEMPLATE channel.name) = FileState.unreadable →
      retrieve_messages fmt fetch channel st = ⟨st, [], some PyErr.osError⟩) := by
  refine ⟨?_, rfl, ?_, ?_, ?_⟩
  · intro habs
    have hload : load_last_message_id st.ckpt channel.name = Except.ok none := by
      simp [load_last_message_id, habs]
    exact ⟨hload, retrieve_messages_head fmt fetch channel st none hload⟩
  · intro s hs
    simp [pageUrl, hs]
  · intro hpres
    simp [load_last_message_id, hpres]
  · intro hunr
    have hload : load_last_message_id st.ckpt channel.name = Except.error PyErr.osError := by
      simp [load_last_message_id, hunr]
    exact retrieve_messages_unreadable fmt fetch channel st PyErr.osError hload

/-- Witness for the amended claim C8: fresh filesystem, channel `general`. -/
theorem c8_missing_checkpoint_not_fatal_witness :
    load_last_message_id st0.ckpt ch_general.name = Except.ok none ∧
    (retrieve_messages (fun s => s) fetchTwo ch_general st0).trace.head? =
      some (Event.pageFetch (pageUrl ch_general.channel_id none)) :=
  (c8_missing_checkpoint_not_fatal (fun s => s) fetchTwo ch_general st0 "").1 rfl

/-- Claim C6 confirmed: in every channel run, a checkpoint write appears in
the trace only as the final event of the successful three-step shape —
page fetch, then the durable append of the page's lines to the channel's
messages file (which by then are in the log state), then the checkpoint
write; and when the page is empty, the status is not 200, or the fetch
raises, no checkpoint is written at all. -/
theorem c6_checkpoint_after_durable_append (fmt : String → String)
    (fetch : String → HttpResult) (channel : Channel) (st : FSt) :
    (∀ p c, Event.checkpointWrite p c ∈ (retrieve_messages fmt fetch channel st).trace →
      ∃ u lines,
        (retrieve_messages fmt fetch channel st).trace =
          [Event.pageFetch u, Event.logAppend (messagesFile channel.name) lines,
           Event.checkpointWrite p c] ∧
        (retrieve_messages fmt fetch channel st).st.log (messagesFile channel.name) =
          st.log (messagesFile channel.name) ++ lines) ∧
    (∀ lm, load_last_message_id st.ckpt channel.name = Except.ok lm →
      (fetch (pageUrl channel.channel_id lm) = HttpResult.transportError ∨
        fetch (pageUrl channel.channel_id lm) = HttpResult.response 200 [] ∨
        (∃ s body, fetch (pageUrl channel.channel_id lm) = HttpResult.response s body ∧
          s ≠ 200)) →
      ∀ p c, Event.checkpointWrite p c ∉ (retrieve_messages fmt fetch channel st).trace) := by
  constructor
  · intro p c hmem
    cases hload : load_last_message_id st.ckpt channel.name with
    | error e =>
      rw [retrieve_messages_unreadable fmt fetch channel st e hload] at hmem
      simp at hmem
    | ok lm =>
      cases hf : fetch (pageUrl channel.channel_id lm) with
      | transportError =>
        rw [retrieve_messages_transport fmt fetch channel st lm hload hf] at hmem
        simp at hmem
      | response s body =>
        by_cases hs : s = 200
        · subst hs
          cases body with
          | nil =>
            rw [retrieve_messages_empty fmt fetch channel st lm hload hf] at hmem
            simp at hmem
          | cons m0 rest =>
            cases himg : pageFirstValidImageUrl (m0 :: rest) with
            | none =>
              rw [retrieve_messages_success fmt fetch channel st lm m0 rest hload hf himg]
                at hmem ⊢
              simp at hmem
              refine ⟨pageUrl channel.channel_id lm,
                (sortByTimestampDesc (m0 :: rest)).map (messageLine fmt), ?_, ?_⟩
              · simp [hmem.1, hmem.2]
              · simp [save_messages_to_file, update]
            | some v =>
              rw [retrieve_messages_image fmt fetch channel st lm m0 rest v hload hf himg]
                at hmem
              simp at hmem
        · rw [retrieve_messages_non200 fmt fetch channel st lm s body hload hf hs] at hmem
          simp at hmem
  · intro lm hload hbad p c
    rcases hbad with ht | hemp | ⟨s, body, hresp, hs⟩
    · rw [retrieve_messages_transport fmt fetch channel st lm hload ht]
      simp
    · rw [retrieve_messages_empty fmt fetch channel st lm hload hemp]
      simp
    · rw [retrieve_messages_non200 fmt fetch channel st lm s body hload hresp hs]
      simp

/-- Witness for claim C6: the two-message run commits checkpoint `100` only
after its page lines are durably in the log. -/
theorem c6_checkpoint_after_durable_append_witness :
    ∃ u lines,
      (retrieve_messages (fun s => s) fetchTwo ch_general st0).trace =
        [Event.pageFetch u, Event.logAppend (messagesFile ch_general.name) lines,
         Event.checkpointWrite (LAST_MESSAGE_ID_FILE_TEMPLATE "general") "100"] ∧
      (retrieve_messages (fun s => s) fetchTwo ch_general st0).st.log
          (messagesFile ch_general.name) =
        st0.log (messagesFile ch_general.name) ++ lines :=
  (c6_checkpoint_after_durable_append (fun s => s) fetchTwo ch_general st0).1
    (LAST_MESSAGE_ID_FILE_TEMPLATE "general") "100" (by decide)

/-- Claim C3 is false as stated: with two configured channels where the
first channel's page fetch raises a transport error, the run aborts — the
second channel is never fetched, processed or checkpointed. -/
theorem c3_counterexample :
    fetchC3 (pageUrl "1" none) = HttpResult.transportError ∧
    fetchC3 (pageUrl "2" none) = HttpResult.response 200 [m100] ∧
    (runChannels (fun s => s) fetchC3 [ch_A, ch_B] st0).err =
      some PyErr.requestException ∧
    (runChannels (fun s => s) fetchC3 [ch_A, ch_B] st0).trace =
      [Event.pageFetch (pageUrl "1" none)] ∧
    Event.pageFetch (pageUrl "2" none) ∉
      (runChannels (fun s => s) fetchC3 [ch_A, ch_B] st0).trace ∧
    (runChannels (fun s => s) fetchC3 [ch_A, ch_B] st0).st.ckpt
      (LAST_MESSAGE_ID_FILE_TEMPLATE "chB") = FileState.absent := by
  decide

/-- Claim C3 amended: only a NON-SUCCESS STATUS on a channel's page fetch is
isolated — the channel is skipped with no state change and the remaining
channels are processed exactly as they would have been; an uncaught
exception (transport error on the fetch, unreadable checkpoint, or the
`TypeError` raised at a download call) aborts the whole run, skipping every
later channel. -/
theorem c3_non_success_status_is_isolated (fmt : String → String)
    (fetch : String → HttpResult) (k : Channel) (rest : List Channel) (st : FSt)
    (lm : Option String) (s : Nat) (body : List Message)
    (hload : load_last_message_id st.ckpt k.name = Except.ok lm)
    (hfetch : fetch (pageUrl k.channel_id lm) = HttpResult.response s body)
    (hs : s ≠ 200) :
    runChannels fmt fetch (k :: rest) st =
      ⟨(runChannels fmt fetch rest st).st,
       Event.pageFetch (pageUrl k.channel_id lm) :: (runChannels fmt fetch rest st).trace,
       (runChannels fmt fetch rest st).err⟩ := by
  conv_lhs => rw [runChannels]
  rw [retrieve_messages_non200 fmt fetch k st lm s body hload hfetch hs]
  rfl

/-- Witness for the amended claim C3: a single channel answering 503 is
skipped and the (empty) remainder of the run is unaffected. -/
theorem c3_non_success_status_is_isolated_witness :
    runChannels (fun s => s) fetch503 [ch_A] st0 =
      ⟨(runChannels (fun s => s) fetch503 [] st0).st,
       Event.pageFetch (pageUrl ch_A.channel_id none) ::
         (runChannels (fun s => s) fetch503 [] st0).trace,
       (runChannels (fun s => s) fetch503 [] st0).err⟩ :=
  c3_non_success_status_is_isolated (fun s => s) fetch503 ch_A [] st0 none 503 []
    rfl rfl (by decide)
